import Mathlib

/-!
Verification of the bikeability route cost engine.

Shallow embedding of the repository's route cost engine:
the backend route service (`backend/server.js`), the elevation grade
deriver (`segment_elevation` INSERT of the elevation import script) and
the crash exposure linker (`database/scripts/05_link_crashes.sh`).
SQL float8 columns are modelled as rationals, SQL NULL as `Option`,
tables as lists of rows.  `pgr_dijkstra(edges_sql, start, end, false)`
is modelled as an executable Dijkstra search over the undirected edge
rows produced by the inner SQL, returning the ordered edge-id path and
its aggregate cost, or `none` when no path exists.
-/

/-- A row of the `ways` table (the columns the backend queries read:
`gid`, `source`, `target`, `length_m`, `tag_id`, `name`). -/
structure Way where
  gid : Nat
  source : Nat
  target : Nat
  length_m : ℚ
  tag_id : Nat
  name : String
deriving DecidableEq

/-- A row of the `vertex_elevation` table (key columns only: one sample
per vertex for the single source name used by the script). -/
structure VertexElevationRow where
  vertex_id : Nat
  elevation_m : ℚ
deriving DecidableEq

/-- A row of the `segment_elevation` table (primary key `segment_id`). -/
structure SegmentElevationRow where
  segment_id : Nat
  elevation_start_m : ℚ
  elevation_end_m : ℚ
  elevation_change_m : ℚ
  grade_percent : ℚ
deriving DecidableEq

/-- `SELECT elevation_m FROM vertex_elevation WHERE vertex_id = v`:
the endpoint sample for a vertex, absent when the raster gave none. -/
def lookupElevation (ve : List VertexElevationRow) (v : Nat) : Option ℚ :=
  match ve with
  | [] => none
  | r :: rest => if r.vertex_id = v then some r.elevation_m else lookupElevation rest v

/-- The SELECT list of the `segment_elevation` INSERT for one way whose
two endpoint samples are `es` and `ee`: elevation change is end minus
start, and grade percent is `((ee - es) / length) * 100` guarded by
`CASE WHEN w.length_m > 0 ... ELSE 0 END`. -/
def segmentElevationRow (w : Way) (es ee : ℚ) : SegmentElevationRow :=
  { segment_id := w.gid
    elevation_start_m := es
    elevation_end_m := ee
    elevation_change_m := ee - es
    grade_percent := if w.length_m > 0 then ((ee - es) / w.length_m) * 100 else 0 }

/-- The `INSERT INTO segment_elevation ... FROM ways w JOIN
vertex_elevation ve_start ON w.source = ve_start.vertex_id JOIN
vertex_elevation ve_end ON w.target = ve_end.vertex_id` statement: a way
yields a row exactly when both endpoint samples exist (inner joins). -/
def insert_segment_elevation (ways : List Way) (ve : List VertexElevationRow) :
    List SegmentElevationRow :=
  match ways with
  | [] => []
  | w :: rest =>
    match lookupElevation ve w.source, lookupElevation ve w.target with
    | some es, some ee => segmentElevationRow w es ee :: insert_segment_elevation rest ve
    | _, _ => insert_segment_elevation rest ve

/-- `LEFT JOIN segment_elevation se ON w.gid = se.segment_id`:
the at-most-one grade record of an edge (`segment_id` is the primary
key). -/
def lookupSegmentElevation (se : List SegmentElevationRow) (gid : Nat) :
    Option SegmentElevationRow :=
  match se with
  | [] => none
  | r :: rest => if r.segment_id = gid then some r else lookupSegmentElevation rest gid

/-- `JOIN ways w ON r.edge = w.gid`: resolve a route row's edge id. -/
def findWay (ways : List Way) (gid : Nat) : Option Way :=
  match ways with
  | [] => none
  | w :: rest => if w.gid = gid then some w else findWay rest gid

/-- The database state the backend queries read: the `ways` table, the
`configuration` table (keyed by `tag_id`; modelled as total functions
since `ways.tag_id` is a foreign key into `configuration`), and the
`segment_elevation` table. -/
structure RoutingDB where
  ways : List Way
  priority : Nat → ℚ
  tag_value : Nat → String
  segment_elevation : List SegmentElevationRow

/-- The `costFormula` ternary of `/api/route`: for `type === 'safest'`
the SQL expression `w.length_m * c.priority * (1 + COALESCE(CASE WHEN
se.grade_percent > 0 THEN se.grade_percent * 0.3 ELSE 0 END, 0))`
(the CASE over the LEFT-JOINed grade record; a NULL grade fails the
comparison and falls through to 0), and for every other `type` the
expression `w.length_m`. -/
def costFormula (db : RoutingDB) (ty : String) (w : Way) : ℚ :=
  if ty = "safest" then
    w.length_m * db.priority w.tag_id *
      (1 + (match lookupSegmentElevation db.segment_elevation w.gid with
            | some se => if se.grade_percent > 0 then se.grade_percent * (3 / 10) else 0
            | none => 0))
  else
    w.length_m

/-- The stored grade of an edge as the route query reads it:
`COALESCE(se.grade_percent, 0)`. -/
def gradeOf (db : RoutingDB) (w : Way) : ℚ :=
  match lookupSegmentElevation db.segment_elevation w.gid with
  | some se => se.grade_percent
  | none => 0

/-- A row of the inner edge SQL handed to `pgr_dijkstra`:
`id, source, target, cost`. -/
structure EdgeRow where
  id : Nat
  source : Nat
  target : Nat
  cost : ℚ
deriving DecidableEq

/-- The inner edge SQL of `/api/route`: `FROM ways w JOIN configuration
c ON w.tag_id = c.tag_id LEFT JOIN segment_elevation se ...` with the
selected `costFormula`; the joins keep every way (the configuration
join is a foreign-key lookup, the elevation join is a LEFT JOIN). -/
def routeEdgeRows (db : RoutingDB) (ty : String) : List EdgeRow :=
  db.ways.map fun w => ⟨w.gid, w.source, w.target, costFormula db ty w⟩

/-- The inner edge SQL of `/api/elevation-profile`:
`SELECT gid as id, source, target, length_m as cost FROM ways`. -/
def profileEdgeRows (db : RoutingDB) : List EdgeRow :=
  db.ways.map fun w => ⟨w.gid, w.source, w.target, w.length_m⟩

/-- The forward orientations an undirected search can take from node
`u`: one `(neighbor, edge id, cost)` entry per edge row whose `source`
is `u`. -/
def outgoingFrom (rows : List EdgeRow) (u : Nat) : List (Nat × Nat × ℚ) :=
  match rows with
  | [] => []
  | e :: rest =>
    if e.source = u then (e.target, e.id, e.cost) :: outgoingFrom rest u
    else outgoingFrom rest u

/-- The reverse orientations: one `(neighbor, edge id, cost)` entry per
edge row whose `target` is `u`, at the same `cost` as the forward
orientation (the inner SQL supplies no `reverse_cost`, and the
`directed` flag of `pgr_dijkstra` is `false`). -/
def incomingTo (rows : List EdgeRow) (u : Nat) : List (Nat × Nat × ℚ) :=
  match rows with
  | [] => []
  | e :: rest =>
    if e.target = u then (e.source, e.id, e.cost) :: incomingTo rest u
    else incomingTo rest u

/-- Undirected adjacency of a node: both orientations of every incident
edge row. -/
def adjacentFrom (rows : List EdgeRow) (u : Nat) : List (Nat × Nat × ℚ) :=
  outgoingFrom rows u ++ incomingTo rows u

/-- A frontier entry of the search: reached node, tentative aggregate
cost, and the reversed list of traversed edge ids. -/
structure FrontierItem where
  node : Nat
  cost : ℚ
  path : List Nat
deriving DecidableEq

/-- Pop the frontier entry of minimal tentative cost (earliest entry on
ties), returning it with the remaining frontier. -/
def selectMin : List FrontierItem → Option (FrontierItem × List FrontierItem)
  | [] => none
  | x :: xs =>
    match selectMin xs with
    | none => some (x, [])
    | some (m, rest) => if x.cost ≤ m.cost then some (x, xs) else some (m, x :: rest)

/-- Relax the edges incident to a freshly settled node: a frontier entry
per unsettled neighbor. -/
def relaxFrom (rows : List EdgeRow) (visited : List Nat) (item : FrontierItem) :
    List FrontierItem :=
  match adjacentFrom rows item.node with
  | adj =>
    adj.foldr
      (fun x acc =>
        if x.1 ∈ visited then acc
        else ⟨x.1, item.cost + x.2.2, x.2.1 :: item.path⟩ :: acc) []

/-- The Dijkstra main loop over non-negative weights: pop the cheapest
frontier entry; if it is the target, return its path and cost; if it was
already settled, drop it; otherwise settle it and relax all incident
edges toward unsettled neighbors. Fuel bounds the number of pops. -/
def dijkstraLoop (rows : List EdgeRow) (target : Nat) :
    Nat → List Nat → List FrontierItem → Option (List Nat × ℚ)
  | 0, _, _ => none
  | fuel + 1, visited, frontier =>
    match selectMin frontier with
    | none => none
    | some (item, rest) =>
      if item.node = target then
        some (item.path.reverse, item.cost)
      else if item.node ∈ visited then
        dijkstraLoop rows target fuel visited rest
      else
        dijkstraLoop rows target fuel (item.node :: visited)
          (rest ++ relaxFrom rows visited item)

/-- `pgr_dijkstra(edges_sql, start, end, false)`: the ordered edge-id
path from `s` to `t` with its aggregate cost, or `none` when `t` is
unreachable from `s`. The fuel `2 * rows.length + 2` exceeds the number
of frontier entries the search can ever create (one initial entry plus
at most two per edge row), so the search always terminates by finding
the target or exhausting the frontier. -/
def pgr_dijkstra (rows : List EdgeRow) (s t : Nat) : Option (List Nat × ℚ) :=
  dijkstraLoop rows t (2 * rows.length + 2) [] [⟨s, 0, []⟩]

/-- `ROUND(x::numeric, 2)`: rounding to two decimals (all values the
claims touch are exact at two decimals, so the tie-breaking convention
of SQL half-away-from-zero versus half-up is immaterial here). -/
def round2 (q : ℚ) : ℚ := ((⌊q * 100 + 1 / 2⌋ : ℤ) : ℚ) / 100

/-- The GeoJSON feature `properties` object built by `/api/route` for
one traversed way: name, rounded length, rounded grade and elevation
change with `COALESCE(..., 0)` over the LEFT-JOINed grade record, road
type from `configuration.tag_value`, and the path sequence number. -/
structure FeatureProps where
  name : String
  length_m : ℚ
  grade_percent : ℚ
  elevation_change_m : ℚ
  road_type : String
  seq : Nat
deriving DecidableEq

/-- Build the feature properties of one traversed way. -/
def featurePropsFor (db : RoutingDB) (seq : Nat) (w : Way) : FeatureProps :=
  { name := w.name
    length_m := round2 w.length_m
    grade_percent :=
      round2 (match lookupSegmentElevation db.segment_elevation w.gid with
              | some se => se.grade_percent
              | none => 0)
    elevation_change_m :=
      round2 (match lookupSegmentElevation db.segment_elevation w.gid with
              | some se => se.elevation_change_m
              | none => 0)
    road_type := db.tag_value w.tag_id
    seq := seq }

/-- Join the traversed edge ids of a route to `ways` (dropping ids that
match no way, as the inner join does with the terminal `edge = -1`
row), numbering rows by `r.seq` in path order. -/
def joinRouteRows (db : RoutingDB) (seq : Nat) (edgeIds : List Nat) : List FeatureProps :=
  match edgeIds with
  | [] => []
  | eid :: rest =>
    match findWay db.ways eid with
    | some w => featurePropsFor db seq w :: joinRouteRows db (seq + 1) rest
    | none => joinRouteRows db (seq + 1) rest

/-- The joined feature rows of the `/api/route` outer query, in path
order. -/
def routeFeatures (db : RoutingDB) (ty : String) (s t : Nat) : List FeatureProps :=
  match pgr_dijkstra (routeEdgeRows db ty) s t with
  | none => []
  | some (edgeIds, _) => joinRouteRows db 1 edgeIds

/-- The single `geojson` column of the `/api/route` query. -/
structure FeatureCollection where
  features : Option (List FeatureProps)
deriving DecidableEq

/-- The `geojson` column value: `json_build_object` always constructs a
JSON object (never SQL NULL), and the aggregate query always yields
exactly one row; `json_agg` over zero joined rows is SQL NULL, giving
`features: null`. -/
def routeQueryGeojson (db : RoutingDB) (ty : String) (s t : Nat) : Option FeatureCollection :=
  some { features :=
           match routeFeatures db ty s t with
           | [] => none
           | fs => some fs }

/-- The three HTTP outcomes of the backend endpoints: a 200 payload, a
400 client error, or the 404 branch. -/
inductive ApiResponse (α : Type) where
  | ok : α → ApiResponse α
  | badRequest : String → ApiResponse α
  | notFound : String → ApiResponse α
deriving DecidableEq

/-- `true` exactly on the 200 success outcome. -/
def ApiResponse.isOk {α : Type} : ApiResponse α → Bool
  | .ok _ => true
  | _ => false

/-- The `/api/route` handler: destructure `start`, `end` and `type`
(defaulting `type` to `'fastest'`), reject missing `start`/`end` with a
400, run the route query, and return the `geojson` value when it is
truthy (the 404 `No route found` branch fires only when the column is
SQL NULL). -/
def apiRoute (db : RoutingDB) (start_q end_q : Option Nat) (type_q : Option String) :
    ApiResponse FeatureCollection :=
  match start_q, end_q with
  | some s, some t =>
    match routeQueryGeojson db (type_q.getD "fastest") s t with
    | some g => .ok g
    | none => .notFound "No route found"
  | _, _ => .badRequest "Missing start or end node"

/-- A row of the `/api/elevation-profile` result: sequence number, way
name, the LEFT-JOINed elevation columns (SQL NULL when the edge has no
grade record), length, and the running `SUM(w.length_m) OVER (ORDER BY
r.seq)`. -/
structure ElevationPoint where
  seq : Nat
  name : String
  elevation_start_m : Option ℚ
  elevation_end_m : Option ℚ
  grade_percent : Option ℚ
  length_m : ℚ
  cumulative_distance_m : ℚ
deriving DecidableEq

/-- Join the traversed edge ids of the profile's route to `ways` and
LEFT-JOIN `segment_elevation`, numbering rows in path order and
threading the running sum of lengths. -/
def joinProfileRows (db : RoutingDB) (seq : Nat) (acc : ℚ) (edgeIds : List Nat) :
    List ElevationPoint :=
  match edgeIds with
  | [] => []
  | eid :: rest =>
    match findWay db.ways eid with
    | some w =>
      { seq := seq
        name := w.name
        elevation_start_m :=
          (lookupSegmentElevation db.segment_elevation w.gid).map
            (fun r => r.elevation_start_m)
        elevation_end_m :=
          (lookupSegmentElevation db.segment_elevation w.gid).map
            (fun r => r.elevation_end_m)
        grade_percent :=
          (lookupSegmentElevation db.segment_elevation w.gid).map
            (fun r => r.grade_percent)
        length_m := w.length_m
        cumulative_distance_m := acc + w.length_m } ::
        joinProfileRows db (seq + 1) (acc + w.length_m) rest
    | none => joinProfileRows db (seq + 1) acc rest

/-- The `/api/elevation-profile` query: its own `pgr_dijkstra` over
`SELECT gid as id, source, target, length_m as cost FROM ways`, joined
to `ways` and LEFT-JOINed to `segment_elevation`, ordered by `r.seq`,
with the running cumulative distance. -/
def elevationProfile (db : RoutingDB) (s t : Nat) : List ElevationPoint :=
  match pgr_dijkstra (profileEdgeRows db) s t with
  | none => []
  | some (edgeIds, _) => joinProfileRows db 1 0 edgeIds

/-- The edge-id path the `/api/route` search traverses (empty when no
path is found). -/
def routePathEdges (db : RoutingDB) (ty : String) (s t : Nat) : List Nat :=
  match pgr_dijkstra (routeEdgeRows db ty) s t with
  | none => []
  | some (edgeIds, _) => edgeIds

/-- The edge-id path the `/api/elevation-profile` search traverses. -/
def profilePathEdges (db : RoutingDB) (s t : Nat) : List Nat :=
  match pgr_dijkstra (profileEdgeRows db) s t with
  | none => []
  | some (edgeIds, _) => edgeIds

/-- A row of the `crash_segment_proximity` table. -/
structure CrashLinkRow where
  crash_id : Nat
  segment_id : Nat
  distance_m : ℚ
deriving DecidableEq

/-- Keep the way ids whose distance under `d` is at most `bound`. -/
def filterDist (d : Nat → ℚ) (bound : ℚ) (l : List Nat) : List Nat :=
  match l with
  | [] => []
  | g :: rest =>
    if d g ≤ bound then g :: filterDist d bound rest else filterDist d bound rest

/-- Insert a way id into a list sorted ascending by the distance `d`. -/
def insertByDist (d : Nat → ℚ) (g : Nat) : List Nat → List Nat
  | [] => [g]
  | h :: t => if d g < d h then g :: h :: t else h :: insertByDist d g t

/-- Sort way ids ascending by the distance `d` (the
`ORDER BY c.location <-> w.the_geom` sort). -/
def sortByDist (d : Nat → ℚ) (l : List Nat) : List Nat :=
  l.foldr (insertByDist d) []

/-- The crash linker's per-incident work (`05_link_crashes.sh`): the
LATERAL subquery keeps the ways within `0.0005` degrees of the incident
(`ST_DWithin(c.location, w.the_geom, 0.0005)`, planar degree-space
distance), orders them by the planar degree-space KNN distance
(`ORDER BY c.location <-> w.the_geom`) and takes the first `5`
(`LIMIT 5`); the outer WHERE then keeps only candidates whose geodesic
distance (`ST_Distance` on `geography`, meters) is at most `50`, and
one link row per survivor is inserted. `degDist` is the planar distance
in degrees and `geoDist` the geodesic distance in meters from the
incident's location to each way's geometry. -/
def linkCrash (degDist geoDist : Nat → ℚ) (wayIds : List Nat) (cid : Nat) :
    List CrashLinkRow :=
  (filterDist geoDist 50
      ((sortByDist degDist (filterDist degDist (1 / 2000) wayIds)).take 5)).map
    fun g => ⟨cid, g, geoDist g⟩

/-- The crash linker's retention policy as the spec states it: keep
exactly the ways whose geodesic distance to the incident is at most
`50` meters, sorted by that distance ascending, truncated to the `5`
nearest. Stated from the spec's words, for comparison with `linkCrash`
(the behavior of the source). -/
def specCrashLinks (geoDist : Nat → ℚ) (wayIds : List Nat) (cid : Nat) :
    List CrashLinkRow :=
  ((sortByDist geoDist (filterDist geoDist 50 wayIds)).take 5).map
    fun g => ⟨cid, g, geoDist g⟩

/-- The spec's end-to-end scenario: a 3-node path A(1)–B(2)–C(3), edge 1
A–B of length 100 and edge 2 B–C of length 200, class priority 1 for
both, vertex elevations 100, 100 and 110 m, so that edge 1 has grade 0
and edge 2 has grade `(10 / 200) * 100 = 5`. The grade records are the
deriver's own output on these elevations. -/
def dbScenario : RoutingDB :=
  { ways :=
      [⟨1, 1, 2, 100, 1, "AB"⟩, ⟨2, 2, 3, 200, 1, "BC"⟩]
    priority := fun _ => 1
    tag_value := fun _ => "residential"
    segment_elevation :=
      insert_segment_elevation
        [⟨1, 1, 2, 100, 1, "AB"⟩, ⟨2, 2, 3, 200, 1, "BC"⟩]
        [⟨1, 100⟩, ⟨2, 100⟩, ⟨3, 110⟩] }

/-- A graph with one edge between nodes 1 and 2 and an isolated node 3:
nodes 1 and 3 lie in disconnected components. -/
def dbDisconnected : RoutingDB :=
  { ways := [⟨1, 1, 2, 100, 1, "AB"⟩]
    priority := fun _ => 1
    tag_value := fun _ => "residential"
    segment_elevation := [] }

/-- A graph on which the two policies pick different routes: from node 1
to node 3, the two-edge path over node 2 (lengths 100 and 150, class
priority 10) is shorter by length, while the direct edge (length 300,
class priority 1) is cheaper under the safest weights. All edges are
flat (no grade records). -/
def dbPolicySplit : RoutingDB :=
  { ways :=
      [⟨1, 1, 2, 100, 2, "AB"⟩, ⟨2, 2, 3, 150, 2, "BC"⟩, ⟨3, 1, 3, 300, 1, "AC"⟩]
    priority := fun t => if t = 2 then 10 else 1
    tag_value := fun _ => "residential"
    segment_elevation := [] }

/-- Planar degree-space distances of a synthetic incident to six ways,
consistent with real geometry near latitude 38.6° (St. Louis), where
one degree of longitude spans about 87 km and one of latitude about
111 km: ways 1–5 lie 52 m due north (`52 / 111000 ≈ 0.000468`
degrees) and way 6 lies 41 m due east (`41 / 87000 ≈ 0.000471`
degrees). -/
def degDistEx : Nat → ℚ :=
  fun g => if g = 6 then 471 / 1000000 else 468 / 1000000

/-- The matching geodesic distances in meters: ways 1–5 at 52 m and
way 6 at 41 m. -/
def geoDistEx : Nat → ℚ :=
  fun g => if g = 6 then 41 else 52

/-- The safest `costFormula` written with the spec's `max(0, ·)` clamp
over the stored grade (0 when no grade record exists). -/
theorem costFormula_safest_eq (db : RoutingDB) (w : Way) :
    costFormula db "safest" w =
      w.length_m * db.priority w.tag_id * (1 + max 0 (gradeOf db w) * (3 / 10)) := by
  unfold costFormula gradeOf
  rw [if_pos rfl]
  cases lookupSegmentElevation db.segment_elevation w.gid with
  | none => norm_num
  | some se =>
    dsimp only
    rcases le_or_lt se.grade_percent 0 with hg | hg
    · rw [if_neg (not_lt.mpr hg), max_eq_left hg]; norm_num
    · rw [if_pos hg, max_eq_right hg.le]

/-- Any `type` other than the string `safest` selects the plain
`w.length_m` cost expression. -/
theorem costFormula_not_safest (db : RoutingDB) (ty : String) (w : Way)
    (h : ty ≠ "safest") : costFormula db ty w = w.length_m := by
  unfold costFormula
  rw [if_neg h]

/-- Popping a one-entry frontier that already sits on the target
returns immediately with that entry's path and cost. -/
theorem dijkstraLoop_pop_target (rows : List EdgeRow) (t : Nat) (c : ℚ) (p : List Nat)
    (vis : List Nat) (fuel : Nat) (h : 0 < fuel) :
    dijkstraLoop rows t fuel vis [⟨t, c, p⟩] = some (p.reverse, c) := by
  cases fuel with
  | zero => exact absurd h (lt_irrefl 0)
  | succ n => simp [dijkstraLoop, selectMin]

/-- A search from a node to itself pops the start immediately: the
zero-edge path of aggregate cost 0. -/
theorem pgr_dijkstra_self (rows : List EdgeRow) (s : Nat) :
    pgr_dijkstra rows s s = some ([], 0) := by
  have h := dijkstraLoop_pop_target rows s 0 [] [] (2 * rows.length + 2) (by omega)
  simpa [pgr_dijkstra] using h

/-- C1: under the `safest` policy every edge is weighted
`length_m * class_priority * (1 + max(0, grade_percent) * 0.3)` with the
grade taken as 0 when no grade record exists; on the 3-node scenario
(edges of 100 m at grade 0 and 200 m at grade 5, priority 1) the safest
costs are 100 and 500 and the search from node 1 to node 3 totals 600
via the middle node. -/
theorem safest_cost_formula_and_scenario :
    (∀ (db : RoutingDB) (w : Way),
        costFormula db "safest" w =
          w.length_m * db.priority w.tag_id * (1 + max 0 (gradeOf db w) * (3 / 10))) ∧
    costFormula dbScenario "safest" ⟨1, 1, 2, 100, 1, "AB"⟩ = 100 ∧
    costFormula dbScenario "safest" ⟨2, 2, 3, 200, 1, "BC"⟩ = 500 ∧
    pgr_dijkstra (routeEdgeRows dbScenario "safest") 1 3 = some ([1, 2], 600) := by
  refine ⟨costFormula_safest_eq, ?_, ?_, ?_⟩
  · norm_num [costFormula, dbScenario, insert_segment_elevation, segmentElevationRow,
      lookupElevation, lookupSegmentElevation]
  · norm_num [costFormula, dbScenario, insert_segment_elevation, segmentElevationRow,
      lookupElevation, lookupSegmentElevation]
  · norm_num [pgr_dijkstra, dijkstraLoop, selectMin, relaxFrom, adjacentFrom,
      outgoingFrom, incomingTo, routeEdgeRows, costFormula, dbScenario,
      insert_segment_elevation, segmentElevationRow, lookupElevation,
      lookupSegmentElevation]

/-- C2: under the `fastest` policy every edge is weighted exactly by its
`length_m`, and the weight depends on no other attribute: two edges of
equal length get equal fastest costs over any two database states. -/
theorem fastest_cost_length_only :
    (∀ (db : RoutingDB) (w : Way), costFormula db "fastest" w = w.length_m) ∧
    (∀ (db db2 : RoutingDB) (w w2 : Way), w.length_m = w2.length_m →
        costFormula db "fastest" w = costFormula db2 "fastest" w2) := by
  have h : ∀ (db : RoutingDB) (w : Way), costFormula db "fastest" w = w.length_m :=
    fun db w => costFormula_not_safest db "fastest" w (by decide)
  exact ⟨h, fun db db2 w w2 hl => by rw [h, h, hl]⟩

/-- Witness for C2: a 100 m edge costs 100 under `fastest`, and two
100 m edges with different priorities, grades and databases cost the
same. -/
theorem fastest_cost_length_only_witness :
    (Way.length_m ⟨1, 1, 2, 100, 1, "AB"⟩ = Way.length_m ⟨9, 7, 8, 100, 5, "XY"⟩) ∧
    costFormula dbScenario "fastest" ⟨1, 1, 2, 100, 1, "AB"⟩ =
      costFormula dbDisconnected "fastest" ⟨9, 7, 8, 100, 5, "XY"⟩ :=
  ⟨rfl, fastest_cost_length_only.2 dbScenario dbDisconnected
    ⟨1, 1, 2, 100, 1, "AB"⟩ ⟨9, 7, 8, 100, 5, "XY"⟩ rfl⟩

/-- C3 counterexample: a route request with the unknown policy value
`scenic` is not rejected: the handler returns the same 200 success it
returns for the default policy, so the search ran with the silently
substituted `fastest` cost. -/
theorem unknown_policy_silently_fastest_cex :
    apiRoute dbScenario (some 1) (some 3) (some "scenic") =
      apiRoute dbScenario (some 1) (some 3) none ∧
    (apiRoute dbScenario (some 1) (some 3) (some "scenic")).isOk = true := by
  constructor
  · norm_num [apiRoute, routeQueryGeojson, routeFeatures, pgr_dijkstra, dijkstraLoop,
      selectMin, relaxFrom, adjacentFrom, outgoingFrom, incomingTo, routeEdgeRows,
      costFormula, Option.getD]
  · simp [apiRoute, routeQueryGeojson, ApiResponse.isOk]

/-- C3 amended: the route handler never validates the policy: any
`type` other than `safest` — unknown values included — is silently
treated as `fastest`, and the request proceeds to the search. -/
theorem unknown_policy_defaults_to_fastest (db : RoutingDB) (s t : Nat) (ty : String)
    (h : ty ≠ "safest") :
    apiRoute db (some s) (some t) (some ty) =
      apiRoute db (some s) (some t) (some "fastest") := by
  have hc : ∀ w, costFormula db ty w = costFormula db "fastest" w := fun w => by
    rw [costFormula_not_safest db ty w h, costFormula_not_safest db "fastest" w (by decide)]
  have hr : routeEdgeRows db ty = routeEdgeRows db "fastest" := by
    simp only [routeEdgeRows, hc]
  simp only [apiRoute, Option.getD_some, routeQueryGeojson, routeFeatures, hr]

/-- Witness for C3 amended: the unknown policy `scenic` yields the
`fastest` response on the scenario graph. -/
theorem unknown_policy_defaults_to_fastest_witness :
    "scenic" ≠ "safest" ∧
    apiRoute dbScenario (some 1) (some 3) (some "scenic") =
      apiRoute dbScenario (some 1) (some 3) (some "fastest") :=
  ⟨by decide, unknown_policy_defaults_to_fastest dbScenario 1 3 "scenic" (by decide)⟩

/-- C4 (code bug): a query between the disconnected nodes 1 and 3 does
not produce the explicit no-route outcome: it returns the 200 success
`{features: null}`, the very response the degenerate source = target
query gets, and the handler's 404 `No route found` branch is
unreachable for every input, because the aggregate route query always
yields one row whose `geojson` object is non-NULL. -/
theorem no_route_indistinguishable_success :
    apiRoute dbDisconnected (some 1) (some 3) (some "fastest") = .ok ⟨none⟩ ∧
    apiRoute dbDisconnected (some 1) (some 3) (some "fastest") =
      apiRoute dbDisconnected (some 1) (some 1) (some "fastest") ∧
    (∀ (db : RoutingDB) (sq eq2 : Option Nat) (tq : Option String) (msg : String),
        apiRoute db sq eq2 tq ≠ .notFound msg) := by
  refine ⟨?_, ?_, ?_⟩
  · norm_num [apiRoute, routeQueryGeojson, routeFeatures, pgr_dijkstra, dijkstraLoop,
      selectMin, relaxFrom, adjacentFrom, outgoingFrom, incomingTo, routeEdgeRows,
      costFormula, dbDisconnected, Option.getD]
  · norm_num [apiRoute, routeQueryGeojson, routeFeatures, pgr_dijkstra, dijkstraLoop,
      selectMin, relaxFrom, adjacentFrom, outgoingFrom, incomingTo, routeEdgeRows,
      costFormula, dbDisconnected, Option.getD, joinRouteRows]
  · intro db sq eq2 tq msg
    cases sq <;> cases eq2 <;> simp [apiRoute, routeQueryGeojson]

/-- C5: a route query with source equal to target succeeds with a
zero-edge route: the search pops the start node immediately, the joined
feature list is empty, and the response is the 200 success (neither the
400 client error nor the 404 branch). -/
theorem source_eq_target_zero_edge_route (db : RoutingDB) (s : Nat) (tq : Option String) :
    apiRoute db (some s) (some s) tq = .ok ⟨none⟩ ∧
    routeFeatures db (tq.getD "fastest") s s = [] := by
  have hf : routeFeatures db (tq.getD "fastest") s s = [] := by
    rw [routeFeatures, pgr_dijkstra_self]
    rfl
  refine ⟨?_, hf⟩
  simp only [apiRoute, routeQueryGeojson, hf]

/-- Distance filtering keeps exactly the members within the bound. -/
theorem mem_filterDist (d : Nat → ℚ) (bound : ℚ) (l : List Nat) (g : Nat) :
    g ∈ filterDist d bound l ↔ g ∈ l ∧ d g ≤ bound := by
  induction l with
  | nil => simp [filterDist]
  | cons h t ih =>
    by_cases hd : d h ≤ bound
    · simp only [filterDist, if_pos hd, List.mem_cons, ih]
      constructor
      · rintro (rfl | ⟨hg, hgb⟩)
        · exact ⟨Or.inl rfl, hd⟩
        · exact ⟨Or.inr hg, hgb⟩
      · rintro ⟨rfl | hg, hgb⟩
        · exact Or.inl rfl
        · exact Or.inr ⟨hg, hgb⟩
    · simp only [filterDist, if_neg hd, List.mem_cons, ih]
      constructor
      · rintro ⟨hg, hgb⟩
        exact ⟨Or.inr hg, hgb⟩
      · rintro ⟨rfl | hg, hgb⟩
        · exact absurd hgb hd
        · exact ⟨hg, hgb⟩

/-- Distance filtering never lengthens a list. -/
theorem length_filterDist_le (d : Nat → ℚ) (bound : ℚ) (l : List Nat) :
    (filterDist d bound l).length ≤ l.length := by
  induction l with
  | nil => simp [filterDist]
  | cons h t ih =>
    by_cases hd : d h ≤ bound
    · simp only [filterDist, if_pos hd, List.length_cons]
      omega
    · simp only [filterDist, if_neg hd, List.length_cons]
      omega

/-- Sorted insertion adds exactly the inserted element. -/
theorem mem_insertByDist (d : Nat → ℚ) (g a : Nat) (l : List Nat) :
    a ∈ insertByDist d g l ↔ a = g ∨ a ∈ l := by
  induction l with
  | nil => simp [insertByDist]
  | cons h t ih =>
    by_cases hd : d g < d h
    · simp [insertByDist, if_pos hd, List.mem_cons]
    · simp only [insertByDist, if_neg hd, List.mem_cons, ih]
      tauto

/-- Sorting by distance permutes the list: membership is unchanged. -/
theorem mem_sortByDist (d : Nat → ℚ) (l : List Nat) (a : Nat) :
    a ∈ sortByDist d l ↔ a ∈ l := by
  induction l with
  | nil => simp [sortByDist]
  | cons h t ih =>
    simp only [sortByDist, List.foldr_cons] at *
    rw [mem_insertByDist, ih, List.mem_cons]

/-- C6 counterexample: a synthetic incident with way 6 only 41 m away
geodesically (within the 50 m threshold) retains zero links, because
the five ways lying 52 m due north are nearer in planar degree-space
and exhaust the `LIMIT 5` before the geodesic filter runs; the spec's
stated policy would retain way 6. -/
theorem crash_link_misses_within_threshold_cex :
    geoDistEx 6 ≤ 50 ∧ (6 : Nat) ∈ [1, 2, 3, 4, 5, 6] ∧
    linkCrash degDistEx geoDistEx [1, 2, 3, 4, 5, 6] 0 = [] ∧
    specCrashLinks geoDistEx [1, 2, 3, 4, 5, 6] 0 = [⟨0, 6, 41⟩] ∧
    linkCrash degDistEx geoDistEx [1, 2, 3, 4, 5, 6] 0 ≠
      specCrashLinks geoDistEx [1, 2, 3, 4, 5, 6] 0 := by
  have h1 : linkCrash degDistEx geoDistEx [1, 2, 3, 4, 5, 6] 0 = [] := by
    norm_num [linkCrash, sortByDist, insertByDist, filterDist, degDistEx, geoDistEx]
  have h2 : specCrashLinks geoDistEx [1, 2, 3, 4, 5, 6] 0 = [⟨0, 6, 41⟩] := by
    norm_num [specCrashLinks, sortByDist, insertByDist, filterDist, geoDistEx]
  refine ⟨by norm_num [geoDistEx], by norm_num, h1, h2, ?_⟩
  rw [h1, h2]
  simp

/-- C6 amended: every retained crash link has geodesic distance at most
50 m to a way of the network and each incident keeps at most 5 links;
but the retained set is only the geodesic-filtered remainder of the 5
planar-degree-nearest candidates within 0.0005°, so an incident with
five or more ways within 50 m may keep fewer than its five
geodesic-nearest ways. -/
theorem crash_links_bounded (degDist geoDist : Nat → ℚ) (wayIds : List Nat) (cid : Nat) :
    (linkCrash degDist geoDist wayIds cid).length ≤ 5 ∧
    ∀ r ∈ linkCrash degDist geoDist wayIds cid,
      r.crash_id = cid ∧ r.segment_id ∈ wayIds ∧
        r.distance_m = geoDist r.segment_id ∧ r.distance_m ≤ 50 := by
  constructor
  · rw [linkCrash, List.length_map]
    calc (filterDist geoDist 50
            ((sortByDist degDist (filterDist degDist (1 / 2000) wayIds)).take 5)).length
        ≤ ((sortByDist degDist (filterDist degDist (1 / 2000) wayIds)).take 5).length :=
          length_filterDist_le _ _ _
      _ ≤ 5 := by
          rw [List.length_take]
          exact min_le_left _ _
  · intro r hr
    rw [linkCrash, List.mem_map] at hr
    obtain ⟨g, hg, rfl⟩ := hr
    rw [mem_filterDist] at hg
    obtain ⟨hg5, hgeo⟩ := hg
    have hgin : g ∈ wayIds := by
      have h1 : g ∈ sortByDist degDist (filterDist degDist (1 / 2000) wayIds) :=
        List.take_subset _ _ hg5
      rw [mem_sortByDist, mem_filterDist] at h1
      exact h1.1
    exact ⟨rfl, hgin, rfl, hgeo⟩

/-- Witness for C6 amended: for the incident with way 6 alone, one link
is retained, with distance 41 ≤ 50 and the right key fields. -/
theorem crash_links_bounded_witness :
    (linkCrash degDistEx geoDistEx [6] 0).length ≤ 5 ∧
    (⟨0, 6, 41⟩ : CrashLinkRow) ∈ linkCrash degDistEx geoDistEx [6] 0 ∧
    ((⟨0, 6, 41⟩ : CrashLinkRow).crash_id = 0 ∧
      (⟨0, 6, 41⟩ : CrashLinkRow).segment_id ∈ [6] ∧
      (⟨0, 6, 41⟩ : CrashLinkRow).distance_m =
        geoDistEx (⟨0, 6, 41⟩ : CrashLinkRow).segment_id ∧
      (⟨0, 6, 41⟩ : CrashLinkRow).distance_m ≤ 50) := by
  have hmem : (⟨0, 6, 41⟩ : CrashLinkRow) ∈ linkCrash degDistEx geoDistEx [6] 0 := by
    norm_num [linkCrash, sortByDist, insertByDist, filterDist, degDistEx, geoDistEx]
  exact ⟨(crash_links_bounded degDistEx geoDistEx [6] 0).1, hmem,
    (crash_links_bounded degDistEx geoDistEx [6] 0).2 _ hmem⟩

/-- Membership characterization of the deriver's output: a grade row is
produced exactly for the ways with elevation samples at both
endpoints, and is the computed row of such a way. -/
theorem mem_insert_segment_elevation (ways : List Way) (ve : List VertexElevationRow)
    (r : SegmentElevationRow) :
    r ∈ insert_segment_elevation ways ve ↔
      ∃ w, w ∈ ways ∧ ∃ es ee,
        lookupElevation ve w.source = some es ∧
        lookupElevation ve w.target = some ee ∧ r = segmentElevationRow w es ee := by
  induction ways with
  | nil => simp [insert_segment_elevation]
  | cons w rest ih =>
    cases hs : lookupElevation ve w.source with
    | some es =>
      cases ht : lookupElevation ve w.target with
      | some ee =>
        simp only [insert_segment_elevation, hs, ht, List.mem_cons, ih]
        constructor
        · rintro (rfl | ⟨w2, hw2, rest2⟩)
          · exact ⟨w, Or.inl rfl, es, ee, hs, ht, rfl⟩
          · exact ⟨w2, Or.inr hw2, rest2⟩
        · rintro ⟨w2, rfl | hw2, es2, ee2, hes, hee, hr⟩
          · rw [hs, Option.some.injEq] at hes
            rw [ht, Option.some.injEq] at hee
            subst hes
            subst hee
            exact Or.inl hr
          · exact Or.inr ⟨w2, hw2, es2, ee2, hes, hee, hr⟩
      | none =>
        simp only [insert_segment_elevation, hs, ht, ih]
        constructor
        · rintro ⟨w2, hw2, rest2⟩
          exact ⟨w2, List.mem_cons_of_mem _ hw2, rest2⟩
        · rintro ⟨w2, hw2, es2, ee2, hes, hee, hr⟩
          rcases List.mem_cons.mp hw2 with rfl | hw2
          · rw [ht] at hee
            cases hee
          · exact ⟨w2, hw2, es2, ee2, hes, hee, hr⟩
    | none =>
      simp only [insert_segment_elevation, hs, ih]
      constructor
      · rintro ⟨w2, hw2, rest2⟩
        exact ⟨w2, List.mem_cons_of_mem _ hw2, rest2⟩
      · rintro ⟨w2, hw2, es2, ee2, hes, hee, hr⟩
        rcases List.mem_cons.mp hw2 with rfl | hw2
        · rw [hs] at hes
          cases hes
        · exact ⟨w2, hw2, es2, ee2, hes, hee, hr⟩

/-- C7: every row the Elevation Grade Deriver stores comes from a way
with elevation samples at both endpoints, records the signed change
end minus start, and its grade percent is 0 when the way's length is 0
(the CASE guard: no division happens) and `((ee - es) / length) * 100`
when the length is positive. -/
theorem segment_grade_division_guard :
    (∀ (ways : List Way) (ve : List VertexElevationRow) (r : SegmentElevationRow),
        r ∈ insert_segment_elevation ways ve →
          ∃ w, w ∈ ways ∧ ∃ es ee,
            lookupElevation ve w.source = some es ∧
            lookupElevation ve w.target = some ee ∧ r = segmentElevationRow w es ee) ∧
    (∀ (w : Way) (es ee : ℚ),
        (segmentElevationRow w es ee).elevation_change_m = ee - es) ∧
    (∀ (w : Way) (es ee : ℚ), w.length_m = 0 →
        (segmentElevationRow w es ee).grade_percent = 0) ∧
    (∀ (w : Way) (es ee : ℚ), w.length_m > 0 →
        (segmentElevationRow w es ee).grade_percent = ((ee - es) / w.length_m) * 100) := by
  refine ⟨fun ways ve r hr => (mem_insert_segment_elevation ways ve r).mp hr,
    fun w es ee => rfl, ?_, ?_⟩
  · intro w es ee h
    simp [segmentElevationRow, h]
  · intro w es ee h
    simp [segmentElevationRow, h]

/-- Witness for C7: the deriver's row for a 100 m way with samples 100
and 110 m traces back to that way; a zero-length way gets grade 0; the
100 m way gets grade `((110 - 100) / 100) * 100`. -/
theorem segment_grade_division_guard_witness :
    (∃ w, w ∈ [(⟨1, 1, 2, 100, 1, "AB"⟩ : Way)] ∧ ∃ es ee,
        lookupElevation [⟨1, 100⟩, ⟨2, 110⟩] w.source = some es ∧
        lookupElevation [⟨1, 100⟩, ⟨2, 110⟩] w.target = some ee ∧
        segmentElevationRow ⟨1, 1, 2, 100, 1, "AB"⟩ 100 110 = segmentElevationRow w es ee) ∧
    (segmentElevationRow (⟨7, 1, 2, 0, 1, "Z"⟩ : Way) 100 110).grade_percent = 0 ∧
    (segmentElevationRow (⟨1, 1, 2, 100, 1, "AB"⟩ : Way) 100 110).grade_percent =
      ((110 - 100) / 100) * 100 := by
  refine ⟨segment_grade_division_guard.1 [⟨1, 1, 2, 100, 1, "AB"⟩] [⟨1, 100⟩, ⟨2, 110⟩] _ ?_,
    segment_grade_division_guard.2.2.1 ⟨7, 1, 2, 0, 1, "Z"⟩ 100 110 rfl,
    segment_grade_division_guard.2.2.2 ⟨1, 1, 2, 100, 1, "AB"⟩ 100 110 (by norm_num)⟩
  norm_num [insert_segment_elevation, lookupElevation]

/-- C8: an edge gets a grade record iff elevation samples exist for
both its endpoints (under per-gid uniqueness of ways); an edge whose
gid has no grade record is still priced — the safest cost collapses to
`length × priority` — and is still reported, with grade and elevation
change shown as 0; and the searched graph contains every way whether or
not it has a grade record. -/
theorem elevation_record_iff_both_samples :
    (∀ (ways : List Way) (ve : List VertexElevationRow) (w : Way),
        w ∈ ways → (∀ w2 ∈ ways, w2.gid = w.gid → w2 = w) →
        ((∃ r ∈ insert_segment_elevation ways ve, r.segment_id = w.gid) ↔
          ((lookupElevation ve w.source).isSome = true ∧
            (lookupElevation ve w.target).isSome = true))) ∧
    (∀ (db : RoutingDB) (w : Way),
        lookupSegmentElevation db.segment_elevation w.gid = none →
          costFormula db "safest" w = w.length_m * db.priority w.tag_id) ∧
    (∀ (db : RoutingDB) (seq : Nat) (w : Way),
        lookupSegmentElevation db.segment_elevation w.gid = none →
          (featurePropsFor db seq w).grade_percent = 0 ∧
          (featurePropsFor db seq w).elevation_change_m = 0) ∧
    (∀ (db : RoutingDB) (ty : String),
        (routeEdgeRows db ty).map EdgeRow.id = db.ways.map Way.gid) := by
  refine ⟨?_, ?_, ?_, ?_⟩
  · intro ways ve w hw hinj
    constructor
    · rintro ⟨r, hr, hgid⟩
      rw [mem_insert_segment_elevation] at hr
      obtain ⟨w2, hw2, es, ee, hes, hee, rfl⟩ := hr
      have hw2w : w2 = w := hinj w2 hw2 hgid
      subst hw2w
      rw [hes, hee]
      exact ⟨rfl, rfl⟩
    · rintro ⟨h1, h2⟩
      obtain ⟨es, hes⟩ := Option.isSome_iff_exists.mp h1
      obtain ⟨ee, hee⟩ := Option.isSome_iff_exists.mp h2
      refine ⟨segmentElevationRow w es ee, ?_, rfl⟩
      rw [mem_insert_segment_elevation]
      exact ⟨w, hw, es, ee, hes, hee, rfl⟩
  · intro db w h
    rw [costFormula_safest_eq, gradeOf, h]
    norm_num
  · intro db seq w h
    constructor
    · simp [featurePropsFor, h, round2]
      norm_num
    · simp [featurePropsFor, h, round2]
      norm_num
  · intro db ty
    simp [routeEdgeRows, List.map_map, Function.comp]

/-- Witness for C8: on a one-way table with both samples present the
record exists; against the empty grade table the way is priced at
`length × priority`, reported with zeros, and still in the graph. -/
theorem elevation_record_iff_both_samples_witness :
    ((∃ r ∈ insert_segment_elevation [(⟨1, 1, 2, 100, 1, "AB"⟩ : Way)] [⟨1, 100⟩, ⟨2, 110⟩],
        r.segment_id = 1) ↔
      ((lookupElevation [⟨1, 100⟩, ⟨2, 110⟩] 1).isSome = true ∧
        (lookupElevation [⟨1, 100⟩, ⟨2, 110⟩] 2).isSome = true)) ∧
    costFormula dbDisconnected "safest" ⟨1, 1, 2, 100, 1, "AB"⟩ =
      100 * dbDisconnected.priority 1 ∧
    ((featurePropsFor dbDisconnected 1 ⟨1, 1, 2, 100, 1, "AB"⟩).grade_percent = 0 ∧
      (featurePropsFor dbDisconnected 1 ⟨1, 1, 2, 100, 1, "AB"⟩).elevation_change_m = 0) ∧
    (routeEdgeRows dbDisconnected "safest").map EdgeRow.id =
      dbDisconnected.ways.map Way.gid := by
  refine ⟨elevation_record_iff_both_samples.1 [⟨1, 1, 2, 100, 1, "AB"⟩] [⟨1, 100⟩, ⟨2, 110⟩]
      ⟨1, 1, 2, 100, 1, "AB"⟩ ?_ ?_,
    elevation_record_iff_both_samples.2.1 dbDisconnected ⟨1, 1, 2, 100, 1, "AB"⟩ rfl,
    elevation_record_iff_both_samples.2.2.1 dbDisconnected 1 ⟨1, 1, 2, 100, 1, "AB"⟩ rfl,
    elevation_record_iff_both_samples.2.2.2 dbDisconnected "safest"⟩
  · decide
  · decide

/-- C9 counterexample: on the policy-splitting graph, a route computed
for the `safest` policy traverses the direct edge 3, while the
elevation-profile companion query for the same source and target
recomputes with length costs and returns the edges 1 and 2 — not the
edges of the already-computed route. -/
theorem elevation_profile_policy_mismatch_cex :
    routePathEdges dbPolicySplit "safest" 1 3 = [3] ∧
    profilePathEdges dbPolicySplit 1 3 = [1, 2] ∧
    profilePathEdges dbPolicySplit 1 3 ≠ routePathEdges dbPolicySplit "safest" 1 3 := by
  have h1 : routePathEdges dbPolicySplit "safest" 1 3 = [3] := by
    norm_num [routePathEdges, pgr_dijkstra, dijkstraLoop, selectMin, relaxFrom,
      adjacentFrom, outgoingFrom, incomingTo, routeEdgeRows, costFormula, dbPolicySplit,
      lookupSegmentElevation]
  have h2 : profilePathEdges dbPolicySplit 1 3 = [1, 2] := by
    norm_num [profilePathEdges, pgr_dijkstra, dijkstraLoop, selectMin, relaxFrom,
      adjacentFrom, outgoingFrom, incomingTo, profileEdgeRows, dbPolicySplit]
  refine ⟨h1, h2, ?_⟩
  rw [h1, h2]
  simp

/-- C9 amended: the elevation-profile query always recomputes the path
with `length_m` as cost — the `fastest` policy — so its edge graph and
its traversed edge sequence coincide with those of a route computed
under `fastest` (and only under that policy, by the counterexample). -/
theorem elevation_profile_matches_fastest_route (db : RoutingDB) (s t : Nat) :
    profileEdgeRows db = routeEdgeRows db "fastest" ∧
    profilePathEdges db s t = routePathEdges db "fastest" s t := by
  have hc : ∀ w : Way, costFormula db "fastest" w = w.length_m := fun w =>
    costFormula_not_safest db "fastest" w (by decide)
  have h : profileEdgeRows db = routeEdgeRows db "fastest" := by
    simp only [profileEdgeRows, routeEdgeRows, hc]
  refine ⟨h, ?_⟩
  simp only [profilePathEdges, routePathEdges, h]

/-- An edge row with `source = u` contributes its forward orientation
to the adjacency of `u`. -/
theorem mem_outgoingFrom (rows : List EdgeRow) (e : EdgeRow) (u : Nat) (he : e ∈ rows)
    (hu : e.source = u) : (e.target, e.id, e.cost) ∈ outgoingFrom rows u := by
  induction rows with
  | nil => cases he
  | cons r rest ih =>
    rcases List.mem_cons.mp he with rfl | hm
    · simp only [outgoingFrom, if_pos hu]
      exact List.mem_cons_self _ _
    · simp only [outgoingFrom]
      by_cases hr : r.source = u
      · rw [if_pos hr]
        exact List.mem_cons_of_mem _ (ih hm)
      · rw [if_neg hr]
        exact ih hm

/-- An edge row with `target = u` contributes its reverse orientation
to the adjacency of `u`, at the same cost. -/
theorem mem_incomingTo (rows : List EdgeRow) (e : EdgeRow) (u : Nat) (he : e ∈ rows)
    (hu : e.target = u) : (e.source, e.id, e.cost) ∈ incomingTo rows u := by
  induction rows with
  | nil => cases he
  | cons r rest ih =>
    rcases List.mem_cons.mp he with rfl | hm
    · simp only [incomingTo, if_pos hu]
      exact List.mem_cons_self _ _
    · simp only [incomingTo]
      by_cases hr : r.target = u
      · rw [if_pos hr]
        exact List.mem_cons_of_mem _ (ih hm)
      · rw [if_neg hr]
        exact ih hm

/-- C10: the safest search weighs an undirected edge identically in
both traversal directions: from its source node and from its target
node the same single cost is used, and that cost applies the uphill
clamp to the grade stored in the edge's source→target orientation —
never negated for the reverse traversal. -/
theorem safest_cost_direction_independent (db : RoutingDB) (w : Way) (h : w ∈ db.ways) :
    ((w.target, w.gid, costFormula db "safest" w) ∈
        adjacentFrom (routeEdgeRows db "safest") w.source) ∧
    ((w.source, w.gid, costFormula db "safest" w) ∈
        adjacentFrom (routeEdgeRows db "safest") w.target) ∧
    costFormula db "safest" w =
      w.length_m * db.priority w.tag_id * (1 + max 0 (gradeOf db w) * (3 / 10)) := by
  have hrow : (⟨w.gid, w.source, w.target, costFormula db "safest" w⟩ : EdgeRow) ∈
      routeEdgeRows db "safest" := List.mem_map_of_mem _ h
  unfold adjacentFrom
  exact ⟨List.mem_append_left _ (mem_outgoingFrom _ _ _ hrow rfl),
    List.mem_append_right _ (mem_incomingTo _ _ _ hrow rfl),
    costFormula_safest_eq db w⟩

/-- Witness for C10: the scenario's uphill edge 2 (stored grade 5) is
offered at cost `costFormula dbScenario "safest" ⟨2, 2, 3, 200, 1, "BC"⟩`
both from node 2 (uphill travel) and from node 3 (downhill travel). -/
theorem safest_cost_direction_independent_witness :
    ((3, 2, costFormula dbScenario "safest" ⟨2, 2, 3, 200, 1, "BC"⟩) ∈
        adjacentFrom (routeEdgeRows dbScenario "safest") 2) ∧
    ((2, 2, costFormula dbScenario "safest" ⟨2, 2, 3, 200, 1, "BC"⟩) ∈
        adjacentFrom (routeEdgeRows dbScenario "safest") 3) ∧
    costFormula dbScenario "safest" ⟨2, 2, 3, 200, 1, "BC"⟩ =
      200 * dbScenario.priority 1 *
        (1 + max 0 (gradeOf dbScenario ⟨2, 2, 3, 200, 1, "BC"⟩) * (3 / 10)) := by
  have hmem : (⟨2, 2, 3, 200, 1, "BC"⟩ : Way) ∈ dbScenario.ways := by decide
  exact safest_cost_direction_independent dbScenario ⟨2, 2, 3, 200, 1, "BC"⟩ hmem
